import Mathlib

/-!
Verification of the cartola-proxy repository.

The repository is a small Express proxy over the Cartola FC API; it exists in
several near-duplicate variants (three concatenated in `src/index.js`, plus
`src/unnamed/part_000` and `src/unnamed/part_001`).  The claims concern the
league resolver, the participant normalizer, the roster cache, the score
aggregator, the market-status gate and the live-standings handlers.

JavaScript values flowing through the proxy are modelled by the inductive
`JVal` below (JSON values plus `undefv`, since the code distinguishes
`undefined`/`null` only through nullish/truthiness checks).  Numbers are
modelled as exact rationals; the floating-point accumulation of the source is
idealised to exact arithmetic, and `Number(x.toFixed(2))` is modelled by the
ECMAScript `toFixed` algorithm on the exact value (sign split off, then the
integer n minimising |n/100 - x| with ties to the larger n).
-/

/-- JavaScript/JSON value, as needed by the proxy code. -/
inductive JVal where
  | undefv : JVal
  | null : JVal
  | boolv (b : Bool) : JVal
  | num (q : ℚ) : JVal
  | str (s : String) : JVal
  | arr (xs : List JVal) : JVal
  | obj (fields : List (String × JVal)) : JVal

mutual

/-- Decidable equality on `JVal` (the derive handler does not support the
nested occurrences of `List`). -/
def JVal.decEq : (a b : JVal) → Decidable (a = b)
  | .undefv, .undefv => isTrue rfl
  | .null, .null => isTrue rfl
  | .boolv a, .boolv b =>
    if h : a = b then isTrue (h ▸ rfl)
    else isFalse (fun hh => h (JVal.boolv.inj hh))
  | .num a, .num b =>
    if h : a = b then isTrue (h ▸ rfl)
    else isFalse (fun hh => h (JVal.num.inj hh))
  | .str a, .str b =>
    if h : a = b then isTrue (h ▸ rfl)
    else isFalse (fun hh => h (JVal.str.inj hh))
  | .arr xs, .arr ys =>
    match JVal.decEqList xs ys with
    | isTrue h => isTrue (h ▸ rfl)
    | isFalse h => isFalse (fun hh => h (JVal.arr.inj hh))
  | .obj fs, .obj gs =>
    match JVal.decEqFields fs gs with
    | isTrue h => isTrue (h ▸ rfl)
    | isFalse h => isFalse (fun hh => h (JVal.obj.inj hh))
  | .undefv, .null | .undefv, .boolv _ | .undefv, .num _ | .undefv, .str _
  | .undefv, .arr _ | .undefv, .obj _ => isFalse (by intro h; exact JVal.noConfusion h)
  | .null, .undefv | .null, .boolv _ | .null, .num _ | .null, .str _
  | .null, .arr _ | .null, .obj _ => isFalse (by intro h; exact JVal.noConfusion h)
  | .boolv _, .undefv | .boolv _, .null | .boolv _, .num _ | .boolv _, .str _
  | .boolv _, .arr _ | .boolv _, .obj _ => isFalse (by intro h; exact JVal.noConfusion h)
  | .num _, .undefv | .num _, .null | .num _, .boolv _ | .num _, .str _
  | .num _, .arr _ | .num _, .obj _ => isFalse (by intro h; exact JVal.noConfusion h)
  | .str _, .undefv | .str _, .null | .str _, .boolv _ | .str _, .num _
  | .str _, .arr _ | .str _, .obj _ => isFalse (by intro h; exact JVal.noConfusion h)
  | .arr _, .undefv | .arr _, .null | .arr _, .boolv _ | .arr _, .num _
  | .arr _, .str _ | .arr _, .obj _ => isFalse (by intro h; exact JVal.noConfusion h)
  | .obj _, .undefv | .obj _, .null | .obj _, .boolv _ | .obj _, .num _
  | .obj _, .str _ | .obj _, .arr _ => isFalse (by intro h; exact JVal.noConfusion h)

/-- Decidable equality on lists of `JVal`. -/
def JVal.decEqList : (a b : List JVal) → Decidable (a = b)
  | [], [] => isTrue rfl
  | [], _ :: _ => isFalse (by intro h; exact List.noConfusion h)
  | _ :: _, [] => isFalse (by intro h; exact List.noConfusion h)
  | x :: xs, y :: ys =>
    match JVal.decEq x y, JVal.decEqList xs ys with
    | isTrue h1, isTrue h2 => isTrue (by rw [h1, h2])
    | isFalse h1, _ => isFalse (fun hh => h1 (List.cons.inj hh).1)
    | _, isFalse h2 => isFalse (fun hh => h2 (List.cons.inj hh).2)

/-- Decidable equality on field lists of `JVal` objects. -/
def JVal.decEqFields : (a b : List (String × JVal)) → Decidable (a = b)
  | [], [] => isTrue rfl
  | [], _ :: _ => isFalse (by intro h; exact List.noConfusion h)
  | _ :: _, [] => isFalse (by intro h; exact List.noConfusion h)
  | (k1, v1) :: fs, (k2, v2) :: gs =>
    if h1 : k1 = k2 then
      match JVal.decEq v1 v2, JVal.decEqFields fs gs with
      | isTrue h2, isTrue h3 => isTrue (by rw [h1, h2, h3])
      | isFalse h2, _ =>
        isFalse (fun hh => h2 (congrArg Prod.snd (List.cons.inj hh).1))
      | _, isFalse h3 => isFalse (fun hh => h3 (List.cons.inj hh).2)
    else isFalse (fun hh => h1 (congrArg Prod.fst (List.cons.inj hh).1))

end

instance : DecidableEq JVal := JVal.decEq

/-- JavaScript truthiness (`if (v)`).  Empty arrays and objects are truthy. -/
def truthy : JVal → Bool
  | .undefv => false
  | .null => false
  | .boolv b => b
  | .num q => decide (q ≠ 0)
  | .str s => decide (s ≠ "")
  | .arr _ => true
  | .obj _ => true

/-- `a || b` (logical OR returns the first truthy operand, else the last). -/
def jsOr (a b : JVal) : JVal := if truthy a then a else b

/-- `a && b` (logical AND returns the first falsy operand, else the last). -/
def jsAnd (a b : JVal) : JVal := if truthy a then b else a

/-- `a ?? b` (nullish coalescing). -/
def jsNullish (a b : JVal) : JVal :=
  match a with
  | .undefv => b
  | .null => b
  | _ => a

/-- Is the value nullish (`undefined` or `null`)? -/
def isNullish : JVal → Bool
  | .undefv => true
  | .null => true
  | _ => false

/-- Property read `v?.k` / guarded `v.k`: missing keys and non-objects give
`undefined`.  Used only where the source either optional-chains or has already
guarded the receiver, so the throwing cases of a plain `.` access are
unreachable there. -/
def jget (v : JVal) (k : String) : JVal :=
  match v with
  | .obj fields => ((fields.find? (fun p => p.fst == k)).map Prod.snd).getD .undefv
  | _ => .undefv

/-- Unguarded property read `v.k`: `none` models the TypeError thrown on a
nullish receiver; primitives and arrays yield `undefined`. -/
def jmem (v : JVal) (k : String) : Option JVal :=
  match v with
  | .undefv => none
  | .null => none
  | .obj fields => some (((fields.find? (fun p => p.fst == k)).map Prod.snd).getD .undefv)
  | _ => some .undefv

/-! ### String constants appearing in the source -/

def keyTimes : String := "times"
def keyTimesParticipantes : String := "times_participantes"
def keyParticipantes : String := "participantes"
def keyTimesDono : String := "times_dono"
def keyLiga : String := "liga"
def keyTime : String := "time"
def keyTimeId : String := "time_id"
def keyId : String := "id"
def keyIdTime : String := "id_time"
def keyNome : String := "nome"
def keyNomeTime : String := "nome_time"
def keyNomeCartola : String := "nome_cartola"
def keyAtletas : String := "atletas"
def keyAtletaId : String := "atleta_id"
def keyPontuacao : String := "pontuacao"
def keyStatusMercado : String := "status_mercado"
def strTime : String := "Time"
def urlLigas : String := "/ligas/"
def urlLiga : String := "/liga/"
def msgMercadoAberto : String := "Mercado aberto - sem parciais disponiveis."
def msgMercadoNaoFechado : String := "Mercado nao esta fechado/bola nao rolando."
def msgSemParticipantesIdx : String := "Liga encontrada, mas sem participantes visiveis."
def msgDicaIdx : String := "Verifique se a liga exige autenticacao ou se sua conta tem acesso."
def msgSemParticipantesP001 : String := "Liga sem participantes visiveis (pode exigir login)."
def msgAvisoSecond : String := "Nao consegui identificar participantes desta liga."
def msgFalhaParciais : String := "Falha ao calcular parciais da liga."
def msgFalhaParciaisObter : String := "Falha ao obter parciais da liga."

/-! ### Further JavaScript primitives -/

/-- Decimal-digit string parser, for the string case of `Number(..)`. -/
def parseDigits (s : String) : Option ℚ :=
  if s.length ≠ 0 ∧ s.all Char.isDigit then
    some ((s.foldl (fun n c => n * 10 + (c.toNat - 48)) 0 : ℕ) : ℚ)
  else none

/-- `Number(v)`; `none` models NaN.  Strings are handled only for plain
decimal-digit literals (the only shape the upstream status field takes);
array/object coercion is collapsed to NaN, which is indistinguishable from
the real semantics at every comparison the code performs (`=== 2`). -/
def jsToNumber : JVal → Option ℚ
  | .undefv => none
  | .null => some 0
  | .boolv b => some (if b then 1 else 0)
  | .num q => some q
  | .str s => parseDigits s
  | .arr _ => none
  | .obj _ => none

/-- `for (const x of v)`: arrays iterate their elements, strings their
characters; any other value raises a TypeError (`none`).  Nullish receivers
cannot reach the call sites below (they are guarded by `|| []` or `?? []`). -/
def jsIterate : JVal → Option (List JVal)
  | .arr xs => some xs
  | .str s => some (s.data.map (fun c => JVal.str (String.singleton c)))
  | _ => none

/-- `v.map(a => a.atleta_id)`: only arrays have `.map` (TypeError otherwise),
and the element access `a.atleta_id` throws on nullish elements. -/
def jsMapAtletaId : JVal → Option (List JVal)
  | .arr xs => xs.mapM (fun a => jmem a keyAtletaId)
  | _ => none

/-! ### Rounding: `Number(total.toFixed(2))` -/

/-- ECMAScript `Number(x.toFixed(2))` on the exact value: the sign is split
off first, then the integer `n` with `n / 100` closest to `|x|` is chosen,
ties going to the larger `n`, i.e. `n = ⌊100·|x| + 1/2⌋`. -/
def jsToFixed2 (x : ℚ) : ℚ :=
  if x < 0 then -((⌊(-x) * 100 + 1 / 2⌋ : ℚ) / 100)
  else (⌊x * 100 + 1 / 2⌋ : ℚ) / 100

/-- Rounding to 2 decimal places with ties away from zero, as the spec words
it: half-up on the nonnegative side, half-down on the negative side. -/
def round2HalfAwayFromZero (x : ℚ) : ℚ :=
  if 0 ≤ x then (⌊100 * x + 1 / 2⌋ : ℚ) / 100
  else (⌈100 * x - 1 / 2⌉ : ℚ) / 100

/-! ### Records produced by the pipeline -/

/-- Normalized participant of the `src/index.js` normalizer
(`{ time_id, nome, raw: t }`, index.js:102). -/
structure Participante where
  time_id : JVal
  nome : JVal
  raw : JVal
deriving DecidableEq

/-- Normalized participant `{ time_id, nome }` (part_000:113, part_001:84). -/
structure TimeRec where
  time_id : JVal
  nome : JVal
deriving DecidableEq

/-- One standings entry `{ time_id, nome, parcial }`. -/
structure Resultado where
  time_id : JVal
  nome : JVal
  parcial : ℚ
deriving DecidableEq

/-- HTTP response of a live-standings handler; only the fields the claims
talk about (status code, standings list, error/indicator strings) are kept;
echoed league metadata and the wall-clock timestamp are outside the model. -/
structure Resp where
  status : ℕ
  resultados : Option (List Resultado) := none
  error : Option String := none
  mensagem : Option String := none
  aviso : Option String := none
  dica : Option String := none
deriving DecidableEq

/-- Upstream failure as seen through axios: response status and body. -/
structure ErrResp where
  status : ℕ
  body : JVal
deriving DecidableEq

instance : DecidableEq (Except ErrResp JVal) := fun a b =>
  match a, b with
  | .ok x, .ok y =>
    if h : x = y then isTrue (h ▸ rfl)
    else isFalse (fun hh => h (Except.ok.inj hh))
  | .error x, .error y =>
    if h : x = y then isTrue (h ▸ rfl)
    else isFalse (fun hh => h (Except.error.inj hh))
  | .ok _, .error _ => isFalse (fun hh => Except.noConfusion hh)
  | .error _, .ok _ => isFalse (fun hh => Except.noConfusion hh)

/-! ### League Resolver (`getLeagueRaw`, src/index.js:52-64; the same
plural-then-singular loop is `getLeague`, part_000:40-58).  The second
component of the result is the list of upstream URLs requested, in order. -/

def getLeagueRaw (fetch : String → Except ErrResp JVal) (idOrSlug : String) :
    Except ErrResp JVal × List String :=
  match fetch (urlLigas ++ idOrSlug) with
  | .ok d => (.ok d, [urlLigas ++ idOrSlug])
  | .error _ =>
    match fetch (urlLiga ++ idOrSlug) with
    | .ok d => (.ok d, [urlLigas ++ idOrSlug, urlLiga ++ idOrSlug])
    | .error e2 => (.error e2, [urlLigas ++ idOrSlug, urlLiga ++ idOrSlug])

/-! ### Participant Normalizer, src/index.js:69-106 -/

/-- Id resolution of one entry (index.js:87-92):
`timeObj = t?.time || t; timeObj?.time_id ?? timeObj?.id ?? t?.time_id ?? null`. -/
def resolveIdIdx (t : JVal) : JVal :=
  let timeObj := jsOr (jget t keyTime) t
  jsNullish (jget timeObj keyTimeId)
    (jsNullish (jget timeObj keyId) (jsNullish (jget t keyTimeId) JVal.null))

/-- Name resolution of one entry (index.js:94-99). -/
def resolveNomeIdx (t : JVal) : JVal :=
  let timeObj := jsOr (jget t keyTime) t
  jsNullish (jget timeObj keyNome)
    (jsNullish (jget timeObj keyNomeTime)
      (jsNullish (jget t keyNome) (jsNullish (jget t keyNomeTime) (JVal.str strTime))))

/-- Loop body of the normalizer (index.js:86-104): push `{time_id, nome, raw}`
only when the resolved id is truthy. -/
def normEntryIdx (t : JVal) : Option Participante :=
  if truthy (resolveIdIdx t) then some ⟨resolveIdIdx t, resolveNomeIdx t, t⟩ else none

/-- Candidate selection (index.js:76-82): `raiz.times || raiz.times_participantes
|| raiz.participantes || (raiz.liga && (raiz.liga.times ||
raiz.liga.times_participantes)) || []`. -/
def candIdx (ligaJson : JVal) : JVal :=
  let raiz := jsOr ligaJson (JVal.obj [])
  jsOr (jget raiz keyTimes)
    (jsOr (jget raiz keyTimesParticipantes)
      (jsOr (jget raiz keyParticipantes)
        (jsOr (jsAnd (jget raiz keyLiga)
            (jsOr (jget (jget raiz keyLiga) keyTimes)
              (jget (jget raiz keyLiga) keyTimesParticipantes)))
          (JVal.arr []))))

/-- `extrairParticipantesLiga` of src/index.js:69-106; `none` is the TypeError
raised by `for (const t of cand)` when the selected candidate is a truthy
non-iterable. -/
def extrairParticipantesLigaIdx (ligaJson : JVal) : Option (List Participante) :=
  (jsIterate (candIdx ligaJson)).map (fun ts => ts.filterMap normEntryIdx)

/-! ### Participant Normalizer, part_000:83-114 -/

/-- Probed candidate paths of `extrairParticipantesLiga` (part_000:90-95). -/
def candListP000 (ligaJson : JVal) : List JVal :=
  [jget ligaJson keyTimes, jget ligaJson keyTimesParticipantes,
    jget ligaJson keyParticipantes, jget (jget ligaJson keyLiga) keyTimes]

/-- The loop of part_000:97-100: first candidate that is a non-empty array. -/
def firstNonEmptyArr : List JVal → List JVal
  | [] => []
  | c :: rest =>
    match c with
    | .arr (x :: xs) => x :: xs
    | _ => firstNonEmptyArr rest

/-- `extrairParticipantesLiga` of part_000:83-101: `.filter(Boolean)` then
the first non-empty array, else `[]`. -/
def extrairParticipantesLigaP000 (ligaJson : JVal) : List JVal :=
  firstNonEmptyArr ((candListP000 ligaJson).filter (fun c => truthy c))

/-- `normalizarParticipante` (part_000:104-114). -/
def normalizarParticipante (p : JVal) : TimeRec :=
  ⟨jsOr (jget p keyTimeId)
      (jsOr (jget (jget p keyTime) keyTimeId)
        (jsOr (jget (jget p keyTime) keyId) (jget p keyIdTime))),
    jsOr (jget p keyNomeTime)
      (jsOr (jget (jget p keyTime) keyNome)
        (jsOr (jget p keyNome)
          (jsOr (jget (jget p keyTime) keyNomeCartola) (JVal.str strTime))))⟩

/-! ### Participant Normalizer, part_001:67-87 -/

/-- Id resolution of part_001:77
(`t.time_id ?? t?.time?.time_id ?? t?.time?.time_id`, duplicated as in the
source; `t` is guarded truthy at the call site, so the plain access is safe). -/
def resolveIdP001 (t : JVal) : JVal :=
  jsNullish (jget t keyTimeId)
    (jsNullish (jget (jget t keyTime) keyTimeId) (jget (jget t keyTime) keyTimeId))

/-- Name resolution of part_001:78-83. -/
def resolveNomeP001 (t : JVal) : JVal :=
  jsNullish (jget t keyNome)
    (jsNullish (jget (jget t keyTime) keyNome)
      (jsNullish (jget t keyNomeTime)
        (jsNullish (jget (jget t keyTime) keyNomeCartola) (JVal.str strTime))))

/-- Loop body of `normalizaParticipantesLiga` (part_001:75-85): skip falsy
entries (`if (!t) continue`), push `{ time_id, nome }` only for a truthy id. -/
def normItemP001 (t : JVal) : Option TimeRec :=
  if truthy t = false then none
  else if truthy (resolveIdP001 t) then some ⟨resolveIdP001 t, resolveNomeP001 t⟩
  else none

/-- The `for` loop of part_001:74-86 over an already-selected candidate list. -/
def normLoopP001 (candidatos : List JVal) : List TimeRec :=
  candidatos.filterMap normItemP001

/-- Candidate selection of part_001:68-72:
`liga?.times ?? liga?.times_participantes ?? liga?.times_dono ?? []`. -/
def candP001 (liga : JVal) : JVal :=
  jsNullish (jget liga keyTimes)
    (jsNullish (jget liga keyTimesParticipantes)
      (jsNullish (jget liga keyTimesDono) (JVal.arr [])))

/-- `normalizaParticipantesLiga` (part_001:67-87); `none` is the TypeError of
iterating a non-iterable candidate. -/
def normalizaParticipantesLiga (liga : JVal) : Option (List TimeRec) :=
  (jsIterate (candP001 liga)).map normLoopP001

/-- `extrairParticipantesLiga` of the second src/index.js variant
(index.js:287-301): returns the first probed path that *is an array*
(empty arrays included), else `[]`. -/
def extrairParticipantesLigaSecond (liga : JVal) : List JVal :=
  match jget liga keyTimes with
  | .arr xs => xs
  | _ =>
    match jget liga keyTimesParticipantes with
    | .arr xs => xs
    | _ =>
      match jget (jget liga keyLiga) keyTimes with
      | .arr xs => xs
      | _ => []

/-! ### Roster Cache (`getTimeLineup`, src/index.js:108-118, part_000:60-80,
part_001:42-57).  The cache `Map` is an association list keyed by team id;
`upstream` is the fetch-and-extract of one roster (its extraction variants
are modelled separately below); the third component of the result counts the
upstream calls issued by this invocation. -/

structure CacheEntry where
  ts : ℕ
  atletas : List ℕ
deriving DecidableEq

abbrev LineupCache := List (ℕ × CacheEntry)

def cacheGet (c : LineupCache) (timeId : ℕ) : Option CacheEntry :=
  (c.find? (fun p => p.fst == timeId)).map Prod.snd

def cacheSet (c : LineupCache) (timeId : ℕ) (e : CacheEntry) : LineupCache :=
  (timeId, e) :: c.filter (fun p => p.fst != timeId)

def CACHE_MS : ℕ := 5 * 60 * 1000

def getTimeLineup (upstream : ℕ → List ℕ) (now : ℕ) (cache : LineupCache)
    (timeId : ℕ) : List ℕ × LineupCache × ℕ :=
  match cacheGet cache timeId with
  | some cached =>
    if now - cached.ts < CACHE_MS then (cached.atletas, cache, 0)
    else
      let atletas := upstream timeId
      (atletas, cacheSet cache timeId ⟨now, atletas⟩, 1)
  | none =>
    let atletas := upstream timeId
    (atletas, cacheSet cache timeId ⟨now, atletas⟩, 1)

/-! ### Roster extraction from the upstream payload -/

/-- `(data?.atletas || []).map(a => a.atleta_id)` (src/index.js:115);
`none` is a TypeError (`.map` missing on a truthy non-array, or
`a.atleta_id` on a nullish element). -/
def extractLineupV1 (data : JVal) : Option (List JVal) :=
  jsMapAtletaId (jsOr (jget data keyAtletas) (JVal.arr []))

/-- `Array.isArray(data?.atletas) ? data.atletas.map(a => a.atleta_id)
.filter(Boolean) : []` (src/index.js:279-281). -/
def extractLineupSecond (data : JVal) : Option (List JVal) :=
  match jget data keyAtletas with
  | .arr xs => (xs.mapM (fun a => jmem a keyAtletaId)).map (fun l => l.filter truthy)
  | _ => some []

/-- `(data?.atletas || data?.time?.atletas || []).map(a => a.atleta_id)
.filter(Boolean)` (part_000:72-77). -/
def extractLineupP000 (data : JVal) : Option (List JVal) :=
  (jsMapAtletaId
      (jsOr (jget data keyAtletas)
        (jsOr (jget (jget data keyTime) keyAtletas) (JVal.arr [])))).map
    (fun l => l.filter truthy)

/-! ### Score Aggregator (src/index.js:180-194, part_000:196-216).

Live scores `pontuados` are keyed in the source by `String(atleta_id)`;
since `String(·)` is injective on the numeric athlete ids, the map is
modelled as an association list keyed by the id itself. -/

def pontLookup (pontuados : List (ℕ × JVal)) (id : ℕ) : Option JVal :=
  (pontuados.find? (fun p => p.fst == id)).map Prod.snd

/-- Body of the summation loop (index.js:183-185): add `reg.pontuacao` to the
running total whenever `reg = pontuados[String(id)]` is truthy and its
`pontuacao` is a number. -/
def somaParcialBody (pontuados : List (ℕ × JVal)) (total : ℚ) (id : ℕ) : ℚ :=
  match pontLookup pontuados id with
  | some reg =>
    if truthy reg then
      match jget reg keyPontuacao with
      | .num q => total + q
      | _ => total
    else total
  | none => total

/-- The summation loop (index.js:182-186): `let total = 0` then fold the
body over the roster. -/
def somaParcial (pontuados : List (ℕ × JVal)) (atletas : List ℕ) : ℚ :=
  atletas.foldl (somaParcialBody pontuados) 0

/-- Modelled from the spec wording of the sum: the contribution of one player
id is its `pontuacao` value when an entry for the id is present and that
value is a number, and exactly 0 otherwise. -/
def specContribution (pontuados : List (ℕ × JVal)) (id : ℕ) : ℚ :=
  match pontLookup pontuados id with
  | some reg =>
    match jget reg keyPontuacao with
    | .num q => q
    | _ => 0
  | none => 0

/-! ### Standings sort (`resultados.sort((a, b) => b.parcial - a.parcial)`,
src/index.js:194, part_000:216).  ECMAScript `Array.prototype.sort` is
required (ES2019) to be stable and consistent with the comparator, so the
call is embedded as a stable descending insertion sort: each element is
inserted, in discovery order, after every already-placed element of
greater-or-equal `parcial`. -/

def insertDesc (x : Resultado) : List Resultado → List Resultado
  | [] => [x]
  | y :: ys => if y.parcial < x.parcial then x :: y :: ys else y :: insertDesc x ys

def sortResultados (l : List Resultado) : List Resultado :=
  l.foldl (fun acc x => insertDesc x acc) []

/-- The sublist of entries having a given `parcial` value. -/
def filterParcial (q : ℚ) (l : List Resultado) : List Resultado :=
  l.filter (fun r => decide (r.parcial = q))

/-! ### Live-standings handlers.

Each handler is parameterised by the already-fetched upstream data: the
market-status payload `st`, the league payload `liga`, the live score map
`pontuados`, and `lineup`, the result of `getTimeLineup` for a team id (the
cache state machine is modelled separately above).  The second component of
the result counts the roster fetches performed by the request. -/

/-- Aggregation loop of `liveForLeague` (src/index.js:179-192). -/
def aggregateIdx (pontuados : List (ℕ × JVal)) (lineup : JVal → List ℕ)
    (participantes : List Participante) : List Resultado × ℕ :=
  participantes.foldl
    (fun acc p =>
      let atletas := lineup p.time_id
      (acc.1 ++ [⟨p.time_id, p.nome, jsToFixed2 (somaParcial pontuados atletas)⟩],
        acc.2 + 1))
    ([], 0)

/-- `liveForLeague` (src/index.js:162-219), after the league payload has been
resolved: 404 with a hint when no participants are visible, 500 when the
normalizer throws (caught by the surrounding try/catch), otherwise the sorted
standings. -/
def liveForLeague (liga : JVal) (pontuados : List (ℕ × JVal))
    (lineup : JVal → List ℕ) : Resp × ℕ :=
  match extrairParticipantesLigaIdx liga with
  | none => ({ status := 500, error := some msgFalhaParciais }, 0)
  | some participantes =>
    if participantes.length = 0 then
      ({ status := 404, error := some msgSemParticipantesIdx,
          dica := some msgDicaIdx }, 0)
    else
      let agg := aggregateIdx pontuados lineup participantes
      ({ status := 200, resultados := some (sortResultados agg.1) }, agg.2)

/-- Aggregation loop of the second src/index.js handler (index.js:341-359):
entries with a falsy `t?.time_id || t?.time?.time_id` are skipped before any
roster fetch. -/
def aggregateSecond (pontuados : List (ℕ × JVal)) (lineup : JVal → List ℕ)
    (participantes : List JVal) : List Resultado × ℕ :=
  participantes.foldl
    (fun acc t =>
      let timeId := jsOr (jget t keyTimeId) (jget (jget t keyTime) keyTimeId)
      let nomeTime := jsOr (jget t keyNome)
        (jsOr (jget (jget t keyTime) keyNome)
          (jsOr (jget t keyNomeTime) (JVal.str strTime)))
      if truthy timeId = false then acc
      else
        let atletas := lineup timeId
        (acc.1 ++ [⟨timeId, nomeTime, jsToFixed2 (somaParcial pontuados atletas)⟩],
          acc.2 + 1))
    ([], 0)

/-- The `/live/:leagueId` handler of the second src/index.js variant
(index.js:317-373): a league payload with no recognized participant array
yields a *successful* 200 response with empty `resultados` and an `aviso`. -/
def liveSecond (liga : JVal) (pontuados : List (ℕ × JVal))
    (lineup : JVal → List ℕ) : Resp × ℕ :=
  let participantes := extrairParticipantesLigaSecond liga
  if participantes.length = 0 then
    ({ status := 200, resultados := some [], aviso := some msgAvisoSecond }, 0)
  else
    let agg := aggregateSecond pontuados lineup participantes
    ({ status := 200, resultados := some (sortResultados agg.1) }, agg.2)

/-- Aggregation loop of part_000:196-214 (normalize, skip falsy ids, fetch,
sum). -/
def aggregateP000 (pontuados : List (ℕ × JVal)) (lineup : JVal → List ℕ)
    (participantes : List JVal) : List Resultado × ℕ :=
  participantes.foldl
    (fun acc p =>
      let q := normalizarParticipante p
      if truthy q.time_id = false then acc
      else
        let atletas := lineup q.time_id
        (acc.1 ++ [⟨q.time_id, q.nome, jsToFixed2 (somaParcial pontuados atletas)⟩],
          acc.2 + 1))
    ([], 0)

/-- The `/live/:leagueId` handler of part_000:168-229.  When
`Number(st?.status_mercado) !== 2` the aggregation is skipped and a 200
response with empty `resultados` and an explanatory `mensagem` is returned
before any roster fetch. -/
def livePart000 (st liga : JVal) (pontuados : List (ℕ × JVal))
    (lineup : JVal → List ℕ) : Resp × ℕ :=
  let fechado := decide (jsToNumber (jget st keyStatusMercado) = some 2)
  if fechado = false then
    ({ status := 200, resultados := some [], mensagem := some msgMercadoAberto }, 0)
  else
    let agg := aggregateP000 pontuados lineup (extrairParticipantesLigaP000 liga)
    ({ status := 200, resultados := some (sortResultados agg.1) }, agg.2)

/-- Aggregation loop of part_001:145-157. -/
def aggregateP001 (pontuados : List (ℕ × JVal)) (lineup : JVal → List ℕ)
    (participantes : List TimeRec) : List Resultado × ℕ :=
  participantes.foldl
    (fun acc p =>
      let atletas := lineup p.time_id
      (acc.1 ++ [⟨p.time_id, p.nome, jsToFixed2 (somaParcial pontuados atletas)⟩],
        acc.2 + 1))
    ([], 0)

/-- The `/live/:league` handler of part_001:126-170.  When
`Number(status?.status_mercado) !== 2` it responds **503 with an error**, not
a successful body; with zero normalized participants it responds 404. -/
def livePart001 (st liga : JVal) (pontuados : List (ℕ × JVal))
    (lineup : JVal → List ℕ) : Resp × ℕ :=
  if decide (jsToNumber (jget st keyStatusMercado) = some 2) = false then
    ({ status := 503, error := some msgMercadoNaoFechado }, 0)
  else
    match normalizaParticipantesLiga liga with
    | none => ({ status := 500, error := some msgFalhaParciaisObter }, 0)
    | some participantes =>
      if participantes.length = 0 then
        ({ status := 404, error := some msgSemParticipantesP001 }, 0)
      else
        let agg := aggregateP001 pontuados lineup participantes
        ({ status := 200, resultados := some (sortResultados agg.1) }, agg.2)

/-! ### Spec-side probe semantics (for comparison with the code) -/

/-- Modelled from the spec: take the first truthy value of an `||` chain,
defaulting to `[]`. -/
def firstTruthyCand : List JVal → JVal
  | [] => .arr []
  | c :: rest => if truthy c then c else firstTruthyCand rest

/-- The candidate paths probed by the src/index.js normalizer, in order. -/
def candListIdx (ligaJson : JVal) : List JVal :=
  let raiz := jsOr ligaJson (JVal.obj [])
  [jget raiz keyTimes, jget raiz keyTimesParticipantes, jget raiz keyParticipantes,
    jsAnd (jget raiz keyLiga)
      (jsOr (jget (jget raiz keyLiga) keyTimes)
        (jget (jget raiz keyLiga) keyTimesParticipantes))]

/-- Modelled from the spec: "take the first non-empty array found" among the
probed candidates, with the empty list when none is found. -/
def specFirstNonEmptyArray (cands : List JVal) : List JVal :=
  (cands.findSome? (fun c =>
    match c with
    | .arr (x :: xs) => some (x :: xs)
    | _ => none)).getD []

/-! ### Concrete inputs used by witnesses and counterexamples -/

def strNomeA : String := "A"
def strEmpty : String := ""
def strBodyPlural : String := "plural route body"
def strBodySingular : String := "singular route body"
def slugNonNumeric : String := "cartodu"

def errPluralMiss : ErrResp := ⟨404, JVal.str strBodyPlural⟩
def errSingularMiss : ErrResp := ⟨404, JVal.str strBodySingular⟩

/-- A fetch oracle on which the two league routes for the slug `cartodu`
fail and *every* other route - any league-search route included - succeeds. -/
def fetchOnlySearchWorks : String → Except ErrResp JVal := fun url =>
  if url = urlLigas ++ slugNonNumeric then .error errPluralMiss
  else if url = urlLiga ++ slugNonNumeric then .error errSingularMiss
  else .ok (JVal.obj [])

def upstreamTwo : ℕ → List ℕ := fun _ => [10, 11]
def cacheSeeded : LineupCache := [(9, ⟨0, [4, 5]⟩)]

def entryScore7 : JVal :=
  JVal.obj [(keyTimeId, JVal.num 7), (keyNome, JVal.str strNomeA)]
def entryNoId : JVal := JVal.obj [(keyNome, JVal.str strNomeA)]
def entryZeroId : JVal :=
  JVal.obj [(keyTimeId, JVal.num 0), (keyNome, JVal.str strNomeA)]
def entryEmptyId : JVal :=
  JVal.obj [(keyTimeId, JVal.str strEmpty), (keyNome, JVal.str strNomeA)]

def ligaEmptyObj : JVal := JVal.obj []

/-- League payload with a *present but empty* `times` array and a non-empty
`times_participantes` array. -/
def ligaMaskedTimes : JVal :=
  JVal.obj [(keyTimes, JVal.arr []), (keyTimesParticipantes, JVal.arr [entryScore7])]

/-- League payload whose `times` array mixes falsy ids (0 and "") with one
valid entry. -/
def ligaMixedIds : JVal :=
  JVal.obj [(keyTimes, JVal.arr [entryZeroId, entryScore7, entryEmptyId])]

/-- Market-status payload with `status_mercado = 1` (market open, not live). -/
def stMercadoAberto : JVal := JVal.obj [(keyStatusMercado, JVal.num 1)]

def lineupNone : JVal → List ℕ := fun _ => []

/-- Roster payload whose `atletas` field is a (truthy) plain object. -/
def payloadAtletasObj : JVal := JVal.obj [(keyAtletas, JVal.obj [])]

/-- Roster payload with no top-level `atletas` but a non-empty roster under
the `time.atletas` fallback path probed by part_000:72-75. -/
def payloadTimeFallback : JVal :=
  JVal.obj [(keyTime,
    JVal.obj [(keyAtletas, JVal.arr [JVal.obj [(keyAtletaId, JVal.num 3)]])])]

def resA : Resultado := ⟨JVal.num 1, JVal.str strNomeA, 31 / 10⟩
def resB : Resultado := ⟨JVal.num 2, JVal.str strNomeA, 7⟩
def resC : Resultado := ⟨JVal.num 3, JVal.str strNomeA, 7⟩
def resD : Resultado := ⟨JVal.num 4, JVal.str strNomeA, 1 / 2⟩

/-! ## Theorems -/

/-! ### C1: score totals and rounding -/

theorem somaParcialStep (pontuados : List (ℕ × JVal)) (total : ℚ) (id : ℕ) :
    somaParcialBody pontuados total id = total + specContribution pontuados id := by
  unfold somaParcialBody specContribution
  cases hp : pontLookup pontuados id with
  | none => simp
  | some reg =>
    cases reg with
    | undefv => simp [truthy, jget]
    | null => simp [truthy, jget]
    | boolv b => cases b <;> simp [truthy, jget]
    | num q => simp [truthy, jget, ite_self]
    | str s => simp [truthy, jget, ite_self]
    | arr xs => simp [truthy, jget]
    | obj fs =>
      simp only [truthy, jget, if_true]
      cases hv : ((fs.find? (fun p => p.fst == keyPontuacao)).map Prod.snd).getD JVal.undefv <;>
        simp

theorem somaParcialFold (pontuados : List (ℕ × JVal)) :
    ∀ (l : List ℕ) (a : ℚ),
      l.foldl (somaParcialBody pontuados) a = a + (l.map (specContribution pontuados)).sum := by
  intro l
  induction l with
  | nil => intro a; simp
  | cons id rest ih =>
    intro a
    simp only [List.foldl_cons, List.map_cons, List.sum_cons]
    rw [ih, somaParcialStep]
    ring

theorem jsToFixed2_eq_round2 (x : ℚ) : jsToFixed2 x = round2HalfAwayFromZero x := by
  unfold jsToFixed2 round2HalfAwayFromZero
  rcases lt_or_le x 0 with hx | hx
  · rw [if_pos hx, if_neg (not_le.mpr hx)]
    have h1 : (100 : ℚ) * x - 1 / 2 = -((-x) * 100 + 1 / 2) := by ring
    rw [h1, Int.ceil_neg]
    push_cast
    ring
  · rw [if_neg (not_lt.mpr hx), if_pos hx, mul_comm x 100]

/-- C1: for every roster and live score map, the computed `parcial` is the
sum, over the roster's player ids, of the entry's numeric `pontuacao` (with
missing or non-numeric entries contributing exactly 0), rounded to 2 decimal
places half-away-from-zero. -/
theorem scoreSumRoundingClaim (pontuados : List (ℕ × JVal)) (atletas : List ℕ) :
    jsToFixed2 (somaParcial pontuados atletas)
      = round2HalfAwayFromZero ((atletas.map (specContribution pontuados)).sum) := by
  unfold somaParcial
  rw [somaParcialFold, jsToFixed2_eq_round2, zero_add]

/-! ### C2: league resolution order -/

/-- C2 (amended): resolution requests the plural league route, then the
singular one, stopping at the first success; no league-search fallback
exists, so the routes requested are always among these two; when both fail,
the surfaced error is the one of the last (singular) attempt, upstream
status and body preserved. -/
theorem leagueResolverClaim (fetch : String → Except ErrResp JVal)
    (idOrSlug : String) :
    (∀ d, fetch (urlLigas ++ idOrSlug) = .ok d →
      getLeagueRaw fetch idOrSlug = (.ok d, [urlLigas ++ idOrSlug])) ∧
    (∀ e1 d, fetch (urlLigas ++ idOrSlug) = .error e1 →
      fetch (urlLiga ++ idOrSlug) = .ok d →
      getLeagueRaw fetch idOrSlug
        = (.ok d, [urlLigas ++ idOrSlug, urlLiga ++ idOrSlug])) ∧
    (∀ e1 e2, fetch (urlLigas ++ idOrSlug) = .error e1 →
      fetch (urlLiga ++ idOrSlug) = .error e2 →
      getLeagueRaw fetch idOrSlug
        = (.error e2, [urlLigas ++ idOrSlug, urlLiga ++ idOrSlug])) := by
  refine ⟨fun d h1 => ?_, fun e1 d h1 h2 => ?_, fun e1 e2 h1 h2 => ?_⟩ <;>
    unfold getLeagueRaw <;> rw [h1] <;> try rw [h2]

/-- C2 witness: concrete run of the failure case of `leagueResolverClaim`. -/
theorem leagueResolverClaim_witness :
    getLeagueRaw fetchOnlySearchWorks slugNonNumeric
      = (.error errSingularMiss,
          [urlLigas ++ slugNonNumeric, urlLiga ++ slugNonNumeric]) :=
  (leagueResolverClaim fetchOnlySearchWorks slugNonNumeric).2.2
    errPluralMiss errSingularMiss (by decide) (by decide)

/-- C2 counterexample: for the non-numeric slug "cartodu", with both league
routes failing and every other upstream route (hence any league-search
route) succeeding, resolution still fails with the singular route's error
and only the two league routes are ever requested - no search query, no
retry with a resolved id. -/
theorem leagueResolverCounterexample :
    getLeagueRaw fetchOnlySearchWorks slugNonNumeric
      = (.error errSingularMiss,
          [urlLigas ++ slugNonNumeric, urlLiga ++ slugNonNumeric]) ∧
    (slugNonNumeric.data.all Char.isDigit) = false := by
  refine ⟨?_, ?_⟩ <;> decide

/-! ### C3: roster cache TTL behaviour -/

theorem cacheGetSet (c : LineupCache) (timeId : ℕ) (e : CacheEntry) :
    cacheGet (cacheSet c timeId e) timeId = some e := by
  simp [cacheGet, cacheSet]

/-- C3: a repeat fetch while the cached entry is younger than the 300000 ms
TTL issues no upstream call and returns the same roster as the first fetch;
an entry at or beyond the TTL is never returned: the fetch then issues
exactly one upstream call and overwrites the entry for that team id. -/
theorem rosterCacheClaim (upstream : ℕ → List ℕ) (cache : LineupCache)
    (id t0 t1 : ℕ) :
    (cacheGet cache id = none → t1 - t0 < CACHE_MS →
      getTimeLineup upstream t0 cache id
          = (upstream id, cacheSet cache id ⟨t0, upstream id⟩, 1) ∧
        getTimeLineup upstream t1 (cacheSet cache id ⟨t0, upstream id⟩) id
          = (upstream id, cacheSet cache id ⟨t0, upstream id⟩, 0)) ∧
    (∀ e, cacheGet cache id = some e → t1 - e.ts < CACHE_MS →
      getTimeLineup upstream t1 cache id = (e.atletas, cache, 0)) ∧
    (∀ e, cacheGet cache id = some e → CACHE_MS ≤ t1 - e.ts →
      getTimeLineup upstream t1 cache id
        = (upstream id, cacheSet cache id ⟨t1, upstream id⟩, 1)) := by
  refine ⟨fun h0 h1 => ⟨?_, ?_⟩, fun e he hf => ?_, fun e he hs => ?_⟩
  · unfold getTimeLineup
    rw [h0]
  · unfold getTimeLineup
    rw [cacheGetSet]
    simp only [if_pos h1]
  · unfold getTimeLineup
    rw [he]
    simp only [if_pos hf]
  · unfold getTimeLineup
    rw [he]
    simp only [if_neg (not_lt.mpr hs)]

/-- C3 witness: concrete fresh hit and concrete expiry at exactly the TTL. -/
theorem rosterCacheClaim_witness :
    getTimeLineup upstreamTwo 5 cacheSeeded 9 = ([4, 5], cacheSeeded, 0) ∧
    getTimeLineup upstreamTwo 300000 cacheSeeded 9
      = ([10, 11], cacheSet cacheSeeded 9 ⟨300000, [10, 11]⟩, 1) := by
  constructor
  · exact (rosterCacheClaim upstreamTwo cacheSeeded 9 0 5).2.1
      ⟨0, [4, 5]⟩ (by decide) (by decide)
  · exact (rosterCacheClaim upstreamTwo cacheSeeded 9 0 300000).2.2
      ⟨0, [4, 5]⟩ (by decide) (by decide)

/-! ### C4: standings sort - descending and stable -/

theorem mem_insertDesc (x z : Resultado) (l : List Resultado)
    (h : z ∈ insertDesc x l) : z = x ∨ z ∈ l := by
  induction l with
  | nil => simpa [insertDesc] using h
  | cons y ys ih =>
    unfold insertDesc at h
    by_cases hc : y.parcial < x.parcial
    · rw [if_pos hc] at h
      rcases List.mem_cons.mp h with h1 | h2
      · exact Or.inl h1
      · exact Or.inr h2
    · rw [if_neg hc] at h
      rcases List.mem_cons.mp h with h1 | h2
      · exact Or.inr (h1 ▸ List.mem_cons_self y ys)
      · rcases ih h2 with h3 | h4
        · exact Or.inl h3
        · exact Or.inr (List.mem_cons_of_mem y h4)

theorem insertDesc_sorted (x : Resultado) (l : List Resultado)
    (h : l.Pairwise (fun a b => b.parcial ≤ a.parcial)) :
    (insertDesc x l).Pairwise (fun a b => b.parcial ≤ a.parcial) := by
  induction l with
  | nil => simp [insertDesc]
  | cons y ys ih =>
    rcases List.pairwise_cons.mp h with ⟨hy, hys⟩
    unfold insertDesc
    by_cases hc : y.parcial < x.parcial
    · rw [if_pos hc]
      refine List.pairwise_cons.mpr ⟨?_, h⟩
      intro z hz
      rcases List.mem_cons.mp hz with h1 | h2
      · exact h1 ▸ le_of_lt hc
      · exact le_trans (hy z h2) (le_of_lt hc)
    · rw [if_neg hc]
      refine List.pairwise_cons.mpr ⟨?_, ih hys⟩
      intro z hz
      rcases mem_insertDesc x z ys hz with h1 | h2
      · exact h1 ▸ not_lt.mp hc
      · exact hy z h2

theorem sortResultadosAux :
    ∀ (l acc : List Resultado),
      acc.Pairwise (fun a b => b.parcial ≤ a.parcial) →
      (l.foldl (fun acc x => insertDesc x acc) acc).Pairwise
        (fun a b => b.parcial ≤ a.parcial) := by
  intro l
  induction l with
  | nil => intro acc h; simpa using h
  | cons x xs ih =>
    intro acc h
    simp only [List.foldl_cons]
    exact ih _ (insertDesc_sorted x acc h)

theorem filterParcial_nil_of_lt (q : ℚ) (y : Resultado) (ys : List Resultado)
    (hsort : (y :: ys).Pairwise (fun a b => b.parcial ≤ a.parcial))
    (hy : y.parcial < q) : filterParcial q (y :: ys) = [] := by
  rcases List.pairwise_cons.mp hsort with ⟨hrel, _⟩
  unfold filterParcial
  rw [List.filter_eq_nil_iff]
  intro a ha
  rcases List.mem_cons.mp ha with h1 | h2
  · simp [h1, ne_of_lt hy]
  · have := lt_of_le_of_lt (hrel a h2) hy
    simp [ne_of_lt this]

theorem filterParcial_insertDesc (q : ℚ) (x : Resultado) (l : List Resultado)
    (h : l.Pairwise (fun a b => b.parcial ≤ a.parcial)) :
    filterParcial q (insertDesc x l)
      = if x.parcial = q then filterParcial q l ++ [x] else filterParcial q l := by
  induction l with
  | nil =>
    by_cases hx : x.parcial = q <;> simp [insertDesc, filterParcial, hx]
  | cons y ys ih =>
    rcases List.pairwise_cons.mp h with ⟨hy, hys⟩
    unfold insertDesc
    by_cases hc : y.parcial < x.parcial
    · rw [if_pos hc]
      by_cases hx : x.parcial = q
      · have hnil : filterParcial q (y :: ys) = [] :=
          filterParcial_nil_of_lt q y ys h (hx ▸ hc)
        rw [if_pos hx, hnil]
        unfold filterParcial at hnil ⊢
        simp [hx, hnil]
      · rw [if_neg hx]
        unfold filterParcial
        simp [hx]
    · rw [if_neg hc]
      have ihe := ih hys
      by_cases hx : x.parcial = q
      · rw [if_pos hx]
        rw [if_pos hx] at ihe
        unfold filterParcial at ihe ⊢
        by_cases hyq : y.parcial = q <;> simp [List.filter_cons, hyq, ihe]
      · rw [if_neg hx]
        rw [if_neg hx] at ihe
        unfold filterParcial at ihe ⊢
        by_cases hyq : y.parcial = q <;> simp [List.filter_cons, hyq, ihe]

theorem sortResultadosFilterAux (q : ℚ) :
    ∀ (l acc : List Resultado),
      acc.Pairwise (fun a b => b.parcial ≤ a.parcial) →
      filterParcial q (l.foldl (fun acc x => insertDesc x acc) acc)
        = filterParcial q acc ++ filterParcial q l := by
  intro l
  induction l with
  | nil => intro acc h; simp [filterParcial]
  | cons x xs ih =>
    intro acc h
    simp only [List.foldl_cons]
    rw [ih _ (insertDesc_sorted x acc h), filterParcial_insertDesc q x acc h]
    by_cases hx : x.parcial = q
    · rw [if_pos hx]
      unfold filterParcial
      simp [List.filter_cons, hx]
    · rw [if_neg hx]
      unfold filterParcial
      simp [List.filter_cons, hx]

/-- C4: the standings sort is descending by `parcial`; entries of equal
`parcial` keep their discovery order (the per-value sublists are unchanged);
and on the concrete scores [3.10, 7.00, 7.00, 0.50] the two 7.00 entries
keep their original relative order. -/
theorem standingsSortClaim :
    (∀ l : List Resultado,
      (sortResultados l).Pairwise (fun a b => b.parcial ≤ a.parcial)) ∧
    (∀ (q : ℚ) (l : List Resultado),
      filterParcial q (sortResultados l) = filterParcial q l) ∧
    sortResultados [resA, resB, resC, resD] = [resB, resC, resA, resD] := by
  refine ⟨fun l => sortResultadosAux l [] List.Pairwise.nil, fun q l => ?_, ?_⟩
  · have h := sortResultadosFilterAux q l [] List.Pairwise.nil
    simpa [sortResultados, filterParcial] using h
  · show sortResultados [resA, resB, resC, resD] = [resB, resC, resA, resD]
    unfold sortResultados
    simp only [List.foldl_cons, List.foldl_nil]
    norm_num [insertDesc, resA, resB, resC, resD]

/-! ### C5: market-status gate -/

/-- C5 (amended): when `Number(st?.status_mercado)` is not 2, both gated
handlers skip aggregation and perform no roster fetch; the part_000 handler
returns a successful 200 response with an empty standings list and an
explanatory message, while the part_001 handler instead returns a 503 error
response, not a successful one. -/
theorem marketGateClaim (st liga : JVal) (pontuados : List (ℕ × JVal))
    (lineup : JVal → List ℕ)
    (h : jsToNumber (jget st keyStatusMercado) ≠ some 2) :
    livePart000 st liga pontuados lineup
      = ({ status := 200, resultados := some [],
            mensagem := some msgMercadoAberto }, 0) ∧
    livePart001 st liga pontuados lineup
      = ({ status := 503, error := some msgMercadoNaoFechado }, 0) := by
  have hd : decide (jsToNumber (jget st keyStatusMercado) = some 2) = false :=
    decide_eq_false h
  constructor
  · unfold livePart000
    rw [hd]
    rfl
  · unfold livePart001
    rw [hd]
    rfl

/-- C5 witness: concrete not-live market status (`status_mercado = 1`). -/
theorem marketGateClaim_witness :
    livePart000 stMercadoAberto ligaEmptyObj [] lineupNone
      = ({ status := 200, resultados := some [],
            mensagem := some msgMercadoAberto }, 0) ∧
    livePart001 stMercadoAberto ligaEmptyObj [] lineupNone
      = ({ status := 503, error := some msgMercadoNaoFechado }, 0) :=
  marketGateClaim stMercadoAberto ligaEmptyObj [] lineupNone (by decide)

/-- C5 counterexample: with the market not live (`status_mercado = 1`), the
part_001 live handler responds 503 with an error string and no standings
list at all - an error response, not the successful not-live response the
claim requires. -/
theorem marketGateCounterexample :
    (livePart001 stMercadoAberto ligaEmptyObj [] lineupNone).1.status = 503 ∧
    (livePart001 stMercadoAberto ligaEmptyObj [] lineupNone).1.resultados = none ∧
    (livePart001 stMercadoAberto ligaEmptyObj [] lineupNone).1.error
      = some msgMercadoNaoFechado := by
  refine ⟨?_, ?_, ?_⟩ <;> decide

/-! ### C7: zero participants after normalization -/

/-- C7 (amended): when normalization yields zero participants, the
`liveForLeague` handler (src/index.js:168-173) responds 404 with an access
hint - not a 500 and not a success - while the second src/index.js handler
(index.js:330-339) instead responds 200 (a success) with empty `resultados`
and a warning; neither performs a roster fetch. -/
theorem emptyParticipantsClaim (liga : JVal) (pontuados : List (ℕ × JVal))
    (lineup : JVal → List ℕ)
    (h1 : extrairParticipantesLigaIdx liga = some [])
    (h2 : extrairParticipantesLigaSecond liga = []) :
    liveForLeague liga pontuados lineup
      = ({ status := 404, error := some msgSemParticipantesIdx,
            dica := some msgDicaIdx }, 0) ∧
    liveSecond liga pontuados lineup
      = ({ status := 200, resultados := some [],
            aviso := some msgAvisoSecond }, 0) := by
  constructor
  · unfold liveForLeague
    rw [h1]
    rfl
  · unfold liveSecond
    rw [h2]
    rfl

/-- C7 witness: a league payload with no recognizable participant array. -/
theorem emptyParticipantsClaim_witness :
    liveForLeague ligaEmptyObj [] lineupNone
      = ({ status := 404, error := some msgSemParticipantesIdx,
            dica := some msgDicaIdx }, 0) ∧
    liveSecond ligaEmptyObj [] lineupNone
      = ({ status := 200, resultados := some [],
            aviso := some msgAvisoSecond }, 0) :=
  emptyParticipantsClaim ligaEmptyObj [] lineupNone
    (by decide) (by decide)

/-- C7 counterexample: on a resolved league payload with zero recognizable
participants, the second src/index.js handler answers 200 with empty
`resultados` and an `aviso` - a success response, not the 404 the claim
requires of the live-standings response. -/
theorem emptyParticipantsCounterexample :
    (liveSecond ligaEmptyObj [] lineupNone).1.status = 200 ∧
    (liveSecond ligaEmptyObj [] lineupNone).1.resultados = some [] ∧
    (liveSecond ligaEmptyObj [] lineupNone).1.aviso = some msgAvisoSecond := by
  refine ⟨?_, ?_, ?_⟩ <;> decide

/-! ### C6: participant-array probing -/

theorem candIdx_eq_firstTruthy (p : JVal) :
    candIdx p = firstTruthyCand (candListIdx p) := by
  simp only [candIdx, candListIdx, firstTruthyCand, jsOr]

theorem extrairIdx_firstTruthy (p : JVal) :
    extrairParticipantesLigaIdx p
      = (jsIterate (firstTruthyCand (candListIdx p))).map
          (fun ts => ts.filterMap normEntryIdx) := by
  unfold extrairParticipantesLigaIdx
  rw [candIdx_eq_firstTruthy]

theorem firstNonEmptyArr_filter :
    ∀ cs : List JVal,
      firstNonEmptyArr (cs.filter (fun c => truthy c))
        = (cs.findSome? (fun c =>
            match c with
            | .arr (x :: xs) => some (x :: xs)
            | _ => none)).getD [] := by
  intro cs
  induction cs with
  | nil => rfl
  | cons c rest ih =>
    rw [List.filter_cons, List.findSome?_cons]
    cases c with
    | arr xs =>
      cases xs with
      | nil => simpa [truthy, firstNonEmptyArr] using ih
      | cons x xs2 => simp [truthy, firstNonEmptyArr]
    | undefv => simpa [truthy] using ih
    | null => simpa [truthy] using ih
    | boolv b => cases b <;> simpa [truthy, firstNonEmptyArr] using ih
    | num q =>
      by_cases hq : q = 0
      · simpa [truthy, hq] using ih
      · simpa [truthy, hq, firstNonEmptyArr] using ih
    | str s =>
      by_cases hs : s = ""
      · simpa [truthy, hs] using ih
      · simpa [truthy, hs, firstNonEmptyArr] using ih
    | obj fs => simpa [truthy, firstNonEmptyArr] using ih

/-- C6 (amended): the part_000 normalizer takes the first non-empty array
among its probed paths (empty list when none is), never failing; the
src/index.js normalizer instead takes the first *truthy* candidate - a
present empty array stops the probe even when a later path holds a non-empty
array - normalizing it when it is an array (so when every probed path is
falsy it yields the empty list), and throwing when the first truthy
candidate is a non-iterable value. -/
theorem participantProbeClaim :
    (∀ p, extrairParticipantesLigaP000 p
      = specFirstNonEmptyArray (candListP000 p)) ∧
    (∀ p xs, firstTruthyCand (candListIdx p) = JVal.arr xs →
      extrairParticipantesLigaIdx p = some (xs.filterMap normEntryIdx)) ∧
    (∀ p, truthy (firstTruthyCand (candListIdx p)) = true →
      (∀ xs, firstTruthyCand (candListIdx p) ≠ JVal.arr xs) →
      (∀ s, firstTruthyCand (candListIdx p) ≠ JVal.str s) →
      extrairParticipantesLigaIdx p = none) := by
  refine ⟨fun p => ?_, fun p xs h => ?_, fun p ht hna hns => ?_⟩
  · unfold extrairParticipantesLigaP000 specFirstNonEmptyArray
    exact firstNonEmptyArr_filter (candListP000 p)
  · rw [extrairIdx_firstTruthy, h]
    rfl
  · rw [extrairIdx_firstTruthy]
    cases hc : firstTruthyCand (candListIdx p) with
    | undefv => rw [hc] at ht; simp [truthy] at ht
    | null => rw [hc] at ht; simp [truthy] at ht
    | boolv b => rfl
    | num q => rfl
    | str s => exact absurd hc (hns s)
    | arr xs => exact absurd hc (hna xs)
    | obj fs => rfl

/-- C6 witness: concrete run of the truthy-candidate case of
`participantProbeClaim` (the probe stops at the empty `times` array). -/
theorem participantProbeClaim_witness :
    extrairParticipantesLigaIdx ligaMaskedTimes
      = some (List.filterMap normEntryIdx []) :=
  participantProbeClaim.2.1 ligaMaskedTimes [] (by decide)

/-- C6 counterexample: on a payload whose `times` is a present empty array
and whose `times_participantes` is non-empty, the src/index.js normalizer
returns the empty list, although the first non-empty probed array exists and
normalizes to a non-empty participant list. -/
theorem participantProbeCounterexample :
    extrairParticipantesLigaIdx ligaMaskedTimes = some [] ∧
    specFirstNonEmptyArray (candListIdx ligaMaskedTimes) = [entryScore7] ∧
    List.filterMap normEntryIdx (specFirstNonEmptyArray (candListIdx ligaMaskedTimes))
      = [⟨JVal.num 7, JVal.str strNomeA, entryScore7⟩] := by
  refine ⟨?_, ?_, ?_⟩ <;> decide

/-! ### C8: entries with no resolvable id -/

theorem jsNullish_of_isNullish (a b : JVal) (h : isNullish a = true) :
    jsNullish a b = b := by
  cases a <;> simp [isNullish] at h <;> rfl

theorem truthy_of_isNullish (a : JVal) (h : isNullish a = true) :
    truthy a = false := by
  cases a <;> simp_all [isNullish, truthy]

theorem resolveIdIdx_null_of_noId (t : JVal)
    (h1 : isNullish (jget t keyTimeId) = true)
    (h2 : isNullish (jget t keyId) = true)
    (h3 : isNullish (jget (jget t keyTime) keyTimeId) = true)
    (h4 : isNullish (jget (jget t keyTime) keyId) = true) :
    resolveIdIdx t = JVal.null := by
  unfold resolveIdIdx
  by_cases hobj : truthy (jget t keyTime) = true
  · simp only [jsOr]
    rw [if_pos hobj]
    rw [jsNullish_of_isNullish _ _ h3, jsNullish_of_isNullish _ _ h4,
      jsNullish_of_isNullish _ _ h1]
  · simp only [jsOr]
    rw [if_neg hobj]
    rw [jsNullish_of_isNullish _ _ h1, jsNullish_of_isNullish _ _ h2,
      jsNullish_of_isNullish _ _ h1]

theorem normEntryIdx_none_of_noId (t : JVal)
    (h1 : isNullish (jget t keyTimeId) = true)
    (h2 : isNullish (jget t keyId) = true)
    (h3 : isNullish (jget (jget t keyTime) keyTimeId) = true)
    (h4 : isNullish (jget (jget t keyTime) keyId) = true) :
    normEntryIdx t = none := by
  unfold normEntryIdx
  rw [resolveIdIdx_null_of_noId t h1 h2 h3 h4]
  rfl

theorem normItemP001_none_of_noId (t : JVal)
    (h1 : isNullish (jget t keyTimeId) = true)
    (h3 : isNullish (jget (jget t keyTime) keyTimeId) = true) :
    normItemP001 t = none := by
  unfold normItemP001
  by_cases ht : truthy t = false
  · rw [if_pos ht]
  · rw [if_neg ht]
    have hid : resolveIdP001 t = jget (jget t keyTime) keyTimeId := by
      unfold resolveIdP001
      rw [jsNullish_of_isNullish _ _ h1, jsNullish_of_isNullish _ _ h3]
    have hfalse : ¬ (truthy (resolveIdP001 t) = true) := by
      rw [hid, truthy_of_isNullish _ h3]
      simp
    rw [if_neg hfalse]

/-- C8: an entry carrying no id at any probed field (`time_id`/`id`, flat or
under the `time` sub-object) never appears in the normalized output (no
record's `raw` is that entry, and splicing the entry into the candidate list
leaves the output unchanged), for both the src/index.js and the part_001
normalizers; the drop is silent (the surrounding normalization still
succeeds, no error value arises). -/
theorem noIdDroppedClaim (t : JVal)
    (h1 : isNullish (jget t keyTimeId) = true)
    (h2 : isNullish (jget t keyId) = true)
    (h3 : isNullish (jget (jget t keyTime) keyTimeId) = true)
    (h4 : isNullish (jget (jget t keyTime) keyId) = true) :
    (∀ (xs : List JVal) (r : Participante),
      r ∈ xs.filterMap normEntryIdx → r.raw ≠ t) ∧
    (∀ as bs : List JVal,
      (as ++ t :: bs).filterMap normEntryIdx
        = (as ++ bs).filterMap normEntryIdx) ∧
    (∀ as bs : List JVal, normLoopP001 (as ++ t :: bs) = normLoopP001 (as ++ bs)) := by
  have hnone : normEntryIdx t = none := normEntryIdx_none_of_noId t h1 h2 h3 h4
  have hnone1 : normItemP001 t = none := normItemP001_none_of_noId t h1 h3
  refine ⟨fun xs r hr hraw => ?_, fun as bs => ?_, fun as bs => ?_⟩
  · rcases List.mem_filterMap.mp hr with ⟨a, ha, hfa⟩
    have hra : r.raw = a := by
      unfold normEntryIdx at hfa
      by_cases hc : truthy (resolveIdIdx a) = true
      · rw [if_pos hc] at hfa
        injection hfa with hh
        rw [← hh]
      · rw [if_neg hc] at hfa
        exact Option.noConfusion hfa
    have hat : a = t := by rw [← hra, hraw]
    rw [hat, hnone] at hfa
    exact Option.noConfusion hfa
  · simp [List.filterMap_append, List.filterMap_cons, hnone]
  · unfold normLoopP001
    simp [List.filterMap_append, List.filterMap_cons, hnone1]

/-- C8 witness: an entry holding only a name is silently absent from the
part_001 normalization output. -/
theorem noIdDroppedClaim_witness :
    normLoopP001 [entryNoId, entryScore7] = normLoopP001 [entryScore7] :=
  (noIdDroppedClaim entryNoId (by decide) (by decide) (by decide)
    (by decide)).2.2 [] [entryScore7]

/-! ### C9: roster payload shapes -/

/-- C9 (amended): the `Array.isArray`-guarded extraction (index.js:279-281)
yields an empty roster whenever the `atletas` field is not an array, without
failing; the unguarded src/index.js extraction (index.js:115) yields an
empty roster when the field is absent or falsy, and both unguarded
extractions (index.js:115, part_000:72-77) *fail* (TypeError propagating
outward) when the field is a truthy non-array; when the field is falsy the
part_000 extraction instead falls back to `data?.time?.atletas`, yielding an
empty roster only when the fallback is falsy too, and the fallback array's
extracted ids (possibly a non-empty roster) when it is an array. -/
theorem rosterShapeClaim (data : JVal) :
    ((∀ xs, jget data keyAtletas ≠ JVal.arr xs) →
      extractLineupSecond data = some []) ∧
    (truthy (jget data keyAtletas) = false → extractLineupV1 data = some []) ∧
    (truthy (jget data keyAtletas) = true →
      (∀ xs, jget data keyAtletas ≠ JVal.arr xs) →
      extractLineupV1 data = none ∧ extractLineupP000 data = none) ∧
    (truthy (jget data keyAtletas) = false →
      truthy (jget (jget data keyTime) keyAtletas) = false →
      extractLineupP000 data = some []) ∧
    (truthy (jget data keyAtletas) = false →
      ∀ xs, jget (jget data keyTime) keyAtletas = JVal.arr xs →
      extractLineupP000 data
        = (xs.mapM (fun a => jmem a keyAtletaId)).map (fun l => l.filter truthy)) := by
  refine ⟨fun hna => ?_, fun hf => ?_, fun ht hna => ?_, fun hf1 hf2 => ?_,
    fun hf1 xs hx => ?_⟩
  · unfold extractLineupSecond
    cases hv : jget data keyAtletas with
    | arr xs => exact absurd hv (hna xs)
    | undefv => rfl
    | null => rfl
    | boolv b => rfl
    | num q => rfl
    | str s => rfl
    | obj fs => rfl
  · unfold extractLineupV1
    simp only [jsOr]
    rw [hf]
    rfl
  · constructor
    · unfold extractLineupV1
      simp only [jsOr]
      rw [ht]
      simp only [if_true]
      cases hv : jget data keyAtletas with
      | arr xs => exact absurd hv (hna xs)
      | undefv => rfl
      | null => rfl
      | boolv b => rfl
      | num q => rfl
      | str s => rfl
      | obj fs => rfl
    · unfold extractLineupP000
      simp only [jsOr]
      rw [ht]
      simp only [if_true]
      cases hv : jget data keyAtletas with
      | arr xs => exact absurd hv (hna xs)
      | undefv => rfl
      | null => rfl
      | boolv b => rfl
      | num q => rfl
      | str s => rfl
      | obj fs => rfl
  · unfold extractLineupP000
    simp only [jsOr]
    rw [hf1, hf2]
    rfl
  · unfold extractLineupP000
    simp only [jsOr]
    rw [hf1, hx]
    rfl

/-- C9 witness: a payload whose `atletas` field is a truthy plain object
makes the unguarded extraction fail while the guarded one yields `[]`; a
payload with no `atletas` but a roster under `time.atletas` makes the
part_000 extraction return that non-empty fallback roster. -/
theorem rosterShapeClaim_witness :
    extractLineupSecond payloadAtletasObj = some [] ∧
    extractLineupV1 payloadAtletasObj = none ∧
    extractLineupP000 payloadTimeFallback = some [JVal.num 3] := by
  refine ⟨?_, ?_, ?_⟩
  · exact (rosterShapeClaim payloadAtletasObj).1
      (fun xs h => by exact JVal.noConfusion h)
  · exact ((rosterShapeClaim payloadAtletasObj).2.2.1 (by decide)
      (fun xs h => by exact JVal.noConfusion h)).1
  · exact (rosterShapeClaim payloadTimeFallback).2.2.2.2 (by decide)
      [JVal.obj [(keyAtletaId, JVal.num 3)]] (by decide)

/-- C9 counterexample: on the roster payload `{ atletas: {} }` the unguarded
extractions of src/index.js:115 and part_000:72-77 throw (the roster fetch
fails outward) instead of yielding an empty roster. -/
theorem rosterShapeCounterexample :
    extractLineupV1 payloadAtletasObj = none ∧
    extractLineupP000 payloadAtletasObj = none ∧
    extractLineupSecond payloadAtletasObj = some [] := by
  refine ⟨?_, ?_, ?_⟩ <;> decide

/-! ### C10: falsy resolved ids are dropped -/

/-- C10: every record in the normalized output has a truthy `time_id` (for
the src/index.js and part_001 normalizers), and an entry whose resolved id
is falsy (for example 0 or "") is spliced out of the output exactly like an
entry with no resolvable id. -/
theorem truthyIdClaim (liga : JVal) (parts : List Participante)
    (h : extrairParticipantesLigaIdx liga = some parts) :
    (∀ r ∈ parts, truthy r.time_id = true) ∧
    (∀ (cand : List JVal) (r2 : TimeRec),
      r2 ∈ normLoopP001 cand → truthy r2.time_id = true) ∧
    (∀ (t : JVal) (as bs : List JVal), truthy (resolveIdIdx t) = false →
      (as ++ t :: bs).filterMap normEntryIdx
        = (as ++ bs).filterMap normEntryIdx) := by
  refine ⟨?_, ?_, ?_⟩
  · intro r hr
    unfold extrairParticipantesLigaIdx at h
    rcases Option.map_eq_some'.mp h with ⟨ts, hts, hparts⟩
    rw [← hparts] at hr
    rcases List.mem_filterMap.mp hr with ⟨a, ha, hfa⟩
    unfold normEntryIdx at hfa
    by_cases hc : truthy (resolveIdIdx a) = true
    · rw [if_pos hc] at hfa
      injection hfa with hh
      rw [← hh]
      exact hc
    · rw [if_neg hc] at hfa
      exact Option.noConfusion hfa
  · intro cand r2 hr2
    rcases List.mem_filterMap.mp hr2 with ⟨a, ha, hfa⟩
    unfold normItemP001 at hfa
    by_cases ht : truthy a = false
    · rw [if_pos ht] at hfa
      exact Option.noConfusion hfa
    · rw [if_neg ht] at hfa
      by_cases hc : truthy (resolveIdP001 a) = true
      · rw [if_pos hc] at hfa
        injection hfa with hh
        rw [← hh]
        exact hc
      · rw [if_neg hc] at hfa
        exact Option.noConfusion hfa
  · intro t as bs hfalse
    have hcond : ¬ (truthy (resolveIdIdx t) = true) := by
      rw [hfalse]
      simp
    have hnone : normEntryIdx t = none := by
      unfold normEntryIdx
      rw [if_neg hcond]
    simp [List.filterMap_append, List.filterMap_cons, hnone]

/-- C10 witness: on a league whose `times` mixes ids 0, 7 and "" only the
entry with the truthy id 7 survives, and its `time_id` is truthy. -/
theorem truthyIdClaim_witness :
    truthy (Participante.mk (JVal.num 7) (JVal.str strNomeA) entryScore7).time_id
      = true := by
  have h := truthyIdClaim ligaMixedIds
    [⟨JVal.num 7, JVal.str strNomeA, entryScore7⟩] (by decide)
  exact h.1 ⟨JVal.num 7, JVal.str strNomeA, entryScore7⟩ (by decide)
